import Mathlib

set_option maxHeartbeats 1000000

/-!
Shallow embedding of the real-time monitoring and escalation pipeline of
The Village (src/backend): the incremental transcript analyzer
(src/backend/ai_analyzer.py), the concern-to-responder resolver
(AIAnalyzer._match_village_member), the event broadcast hub
(src/backend/websocket_manager.py), and the call-status writes performed by
src/backend/main.py (start_call, save_call_data) and the voice agent's
shutdown path (src/backend/voice/agent.py).

Modelling conventions: Python strings are Lean String; timestamps are carried
as opaque strings; Python dicts keyed by call id are Lean functions
String -> Option _; Python sets of websocket connections are duplicate-free
List Nat (connections named by numbers); a Python exception is the error side
of Except PyError; the external Gemini client is a parameter describing its
behaviour for the one invocation a step can make.  All definitions are
computable and evaluable on concrete inputs.
-/

/-- Kinds of Python exceptions that the modelled code can raise internally.
attributeError models an AttributeError on attribute access; validationError
models a pydantic ValidationError raised by a model constructor. -/
inductive PyError where
  | attributeError
  | validationError
  deriving Repr, DecidableEq

/-! ## Data model (src/backend/models.py) -/

/-- models.TranscriptLine: id, speaker, speaker_name, text, timestamp.
The speaker Literal and the timestamp are carried as plain strings. -/
structure TranscriptLine where
  id : String
  speaker : String
  speaker_name : String
  text : String
  timestamp : String
  deriving Repr, DecidableEq

/-- models.VillageMember: id, name, role, relationship, phone, availability,
notes.  The role Literal is carried as a plain string.  Note the model has an
availability : Optional[str] field and NO boolean available field. -/
structure VillageMember where
  id : String
  name : String
  role : String
  relationship : String
  phone : String
  availability : Option String := none
  notes : Option String := none
  deriving Repr, DecidableEq

/-- models.WellbeingBaseline. -/
structure WellbeingBaseline where
  typical_mood : String
  social_frequency : String
  cognitive_baseline : String
  physical_limitations : List String := []
  known_concerns : List String := []
  deriving Repr, DecidableEq

/-- models.ProfileFact: id, fact, category (Literal), context, learned_at
(datetime, required), source_call_id.  AIAnalyzer._extract_profile_facts never
constructs a valid one (it omits learned_at), so no constructor call of this
structure appears in the analyzer's embedding. -/
structure ProfileFact where
  id : String
  fact : String
  category : String
  context : Option String := none
  learned_at : String
  source_call_id : Option String := none
  deriving Repr, DecidableEq

/-- models.Medication. -/
structure Medication where
  name : String
  dosage : String
  frequency : String
  next_refill : Option String := none
  deriving Repr, DecidableEq

/-- models.MedicalInfo. -/
structure MedicalInfo where
  primary_doctor : String
  practice_name : String
  practice_phone : String
  medications : List Medication := []
  conditions : List String := []
  deriving Repr, DecidableEq

/-- models.Elder.  wellbeing_baseline is required by the pydantic model but
the analyzer guards it with a truthiness test, so it is carried as Option. -/
structure Elder where
  id : String
  name : String
  age : Nat
  phone : String
  photo_url : Option String := none
  address : String
  profile : List ProfileFact := []
  village : List VillageMember := []
  medical : MedicalInfo
  wellbeing_baseline : Option WellbeingBaseline
  deriving Repr, DecidableEq

/-- models.Concern: the pydantic model's fields.  id, dimension, type,
severity, description, quote, detected_at and action_required have no
defaults, hence are required at construction. -/
structure Concern where
  id : String
  dimension : String
  type : String
  severity : String
  description : String
  quote : String
  detected_at : String
  action_required : Bool
  is_pattern : Bool := false
  pattern_history : List String := []
  actions_triggered : List String := []
  deriving Repr, DecidableEq

/-- Fields of models.Concern that have no default value and therefore must be
supplied to the pydantic constructor. -/
def concernRequiredFields : List String :=
  ["id", "dimension", "type", "severity", "description", "quote",
   "detected_at", "action_required"]

/-- Keyword arguments that AIAnalyzer._detect_concerns passes to Concern(...)
(src/backend/ai_analyzer.py lines 315 to 325). -/
def detectConcernsKwargs : List String :=
  ["id", "call_session_id", "type", "severity", "description",
   "detected_at", "action_required", "action_taken", "resolved"]

/-! ## Wellbeing assessment model (src/backend/models.py) -/

/-- models.EmotionalState. -/
structure EmotionalState where
  current_mood : String
  loneliness_level : String
  grief_indicators : Bool := false
  fear_indicators : Bool := false
  hope_indicators : Bool := false
  notes : String := ""
  deriving Repr, DecidableEq

/-- models.MentalState. -/
structure MentalState where
  depression_indicators : List String := []
  anxiety_indicators : List String := []
  purpose_level : String
  pattern_change : Bool := false
  notes : String := ""
  deriving Repr, DecidableEq

/-- models.SocialState. -/
structure SocialState where
  family_contact_recency : String
  isolation_level : String
  community_engagement : String
  support_network_strength : String
  notes : String := ""
  deriving Repr, DecidableEq

/-- models.PhysicalState. -/
structure PhysicalState where
  pain_reported : Bool := false
  pain_details : Option String := none
  mobility_concerns : Bool := false
  sleep_issues : Bool := false
  nutrition_concerns : Bool := false
  medication_issues : Bool := false
  energy_level : String
  notes : String := ""
  deriving Repr, DecidableEq

/-- models.CognitiveState. -/
structure CognitiveState where
  memory_concerns : Bool := false
  orientation_issues : Bool := false
  baseline_change : Bool := false
  notes : String := ""
  deriving Repr, DecidableEq

/-- models.WellbeingAssessment. -/
structure WellbeingAssessment where
  emotional : EmotionalState
  mental : MentalState
  social : SocialState
  physical : PhysicalState
  cognitive : CognitiveState
  overall_concern_level : String
  deriving Repr, DecidableEq

/-! ## Parsed provider response (the JSON structure the analyzer reads) -/

/-- The wellbeing sub-dictionary of a parsed Gemini response; every field is
optional because the analyzer reads each key with dict.get and a default.
Values are assumed well typed (strings, booleans, string lists); responses
that are not even JSON are modelled separately as unparseable. -/
structure WellbeingData where
  mood : Option String := none
  loneliness_level : Option String := none
  grief_indicators : Option Bool := none
  fear_indicators : Option Bool := none
  hope_indicators : Option Bool := none
  emotional_notes : Option String := none
  depression_indicators : Option (List String) := none
  anxiety_indicators : Option (List String) := none
  purpose_level : Option String := none
  mental_pattern_change : Option Bool := none
  mental_notes : Option String := none
  family_contact_recency : Option String := none
  isolation_level : Option String := none
  community_engagement : Option String := none
  support_network_strength : Option String := none
  social_notes : Option String := none
  pain_reported : Option Bool := none
  pain_details : Option String := none
  mobility_concerns : Option Bool := none
  sleep_issues : Option Bool := none
  nutrition_concerns : Option Bool := none
  medication_issues : Option Bool := none
  energy_level : Option String := none
  physical_notes : Option String := none
  memory_concerns : Option Bool := none
  orientation_issues : Option Bool := none
  cognitive_baseline_change : Option Bool := none
  cognitive_notes : Option String := none
  overall_concern_level : Option String := none
  deriving Repr, DecidableEq

/-- One element of the concerns array of a parsed response; the analyzer
reads type, severity, description and action_required with dict.get. -/
structure ConcernData where
  type : Option String := none
  severity : Option String := none
  description : Option String := none
  action_required : Option Bool := none
  deriving Repr, DecidableEq

/-- One element of the profile_updates array of a parsed response. -/
structure ProfileUpdateData where
  category : Option String := none
  fact : Option String := none
  deriving Repr, DecidableEq

/-- One element of the suggested_actions array of a parsed response. -/
structure SuggestedActionData where
  action_type : Option String := none
  urgency : Option String := none
  reason : Option String := none
  suggested_contact : Option String := none
  deriving Repr, DecidableEq

/-- A parsed Gemini response: the four keys the analyzer reads, each with its
dict.get default (empty dict respectively empty list) modelled as
none respectively the empty list. -/
structure AnalysisJson where
  wellbeing : Option WellbeingData := none
  concerns : List ConcernData := []
  profile_updates : List ProfileUpdateData := []
  suggested_actions : List SuggestedActionData := []
  deriving Repr, DecidableEq

/-- The raw text returned by the provider, abstracted to whether, after the
markdown-fence stripping in _parse_gemini_response, json.loads succeeds and
what structure it yields.  Surrounding prose makes json.loads fail so such a
response is the unparseable case. -/
inductive GeminiText where
  | parsesTo (a : AnalysisJson)
  | unparseable
  deriving Repr, DecidableEq

/-- Behaviour of the configured Gemini client for one generate_content call:
it either raises or returns a response whose text is the given GeminiText. -/
inductive ProviderResult where
  | raises
  | returns (text : GeminiText)
  deriving Repr, DecidableEq

/-! ## Concern-to-responder resolver (AIAnalyzer._match_village_member) -/

/-- Python substring test needle in hay on lowered strings, on character
lists: true iff needle occurs as a contiguous infix of hay (an empty needle
is always contained, as in Python). -/
def listContainsSub (hay needle : List Char) : Bool :=
  if needle.isPrefixOf hay then true
  else
    match hay with
    | [] => false
    | _ :: t => listContainsSub t needle

/-- Characterwise lowering, the effect of str.lower() on the character
sequence (equivalent for the ASCII role names involved). -/
def lowerChars (l : List Char) : List Char := l.map Char.toLower

/-- Case-insensitive substring test: role.lower() in member_role.lower(). -/
def strContainsCI (hay needle : String) : Bool :=
  listContainsSub (lowerChars hay.toList) (lowerChars needle.toList)

/-- Role priority mapping of _match_village_member with the dict.get
default of the empty list for unknown action types. -/
def rolePriority (action_type : String) : List String :=
  if action_type = "call_family" then ["family"]
  else if action_type = "call_medical" then ["medical", "volunteer"]
  else if action_type = "call_neighbor" then ["neighbor", "friend"]
  else if action_type = "call_volunteer" then ["volunteer", "neighbor"]
  else []

/-- Evaluation of the attribute access member.available.  models.VillageMember
defines availability : Optional[str] but no field named available, so the
access raises AttributeError on every member. -/
def memberAvailable (_ : VillageMember) : Except PyError Bool :=
  .error .attributeError

/-- Inner loop of _match_village_member for one preferred role: scan the
roster for the first member whose lowered role contains the lowered preferred
role and whose available attribute is truthy.  The available attribute is
only read after the substring test succeeds, mirroring the short-circuit and. -/
def scanRole (role : String) : List VillageMember → Except PyError (Option VillageMember)
  | [] => .ok none
  | m :: ms =>
    if strContainsCI m.role role then do
      let b ← memberAvailable m
      if b then .ok (some m) else scanRole role ms
    else scanRole role ms

/-- Outer loop of _match_village_member over the preferred roles in order. -/
def findPreferred (village : List VillageMember) : List String → Except PyError (Option VillageMember)
  | [] => .ok none
  | role :: rest => do
    match ← scanRole role village with
    | some m => .ok (some m)
    | none => findPreferred village rest

/-- Fallback loop of _match_village_member: first roster member whose
available attribute is truthy, regardless of role. -/
def scanAnyAvailable : List VillageMember → Except PyError (Option VillageMember)
  | [] => .ok none
  | m :: ms => do
    let b ← memberAvailable m
    if b then .ok (some m) else scanAnyAvailable ms

/-- AIAnalyzer._match_village_member(elder, action_type, suggested_contact).
Returns None for an empty roster, otherwise scans the preferred roles in
priority order and then falls back to any available member; the
suggested_contact argument is never read by the body.  A successful scan
returns the member (the source returns member.dict(), a dictionary with the
same fields). -/
def match_village_member (elder : Elder) (action_type : String)
    (suggested_contact : String) : Except PyError (Option VillageMember) :=
  let _ := suggested_contact
  if elder.village = [] then .ok none
  else do
    match ← findPreferred elder.village (rolePriority action_type) with
    | some m => .ok (some m)
    | none => scanAnyAvailable elder.village

/-! ## Analyzer helper functions (src/backend/ai_analyzer.py) -/

/-- Membership test for a pydantic Literal annotation. -/
def literalOk (allowed : List String) (v : String) : Bool :=
  allowed.contains v

/-- AIAnalyzer._create_wellbeing_assessment: an empty or missing wellbeing
dictionary yields None; otherwise the five state models are built with the
dict.get defaults of the source, validating each Literal field as pydantic
does (an out-of-range value raises ValidationError). -/
def create_wellbeing_assessment (wellbeing_data : Option WellbeingData) :
    Except PyError (Option WellbeingAssessment) :=
  match wellbeing_data with
  | none => .ok none
  | some wd =>
    let emotional : EmotionalState :=
      { current_mood := wd.mood.getD "neutral"
        loneliness_level := wd.loneliness_level.getD "none"
        grief_indicators := wd.grief_indicators.getD false
        fear_indicators := wd.fear_indicators.getD false
        hope_indicators := wd.hope_indicators.getD false
        notes := wd.emotional_notes.getD "" }
    let mental : MentalState :=
      { depression_indicators := wd.depression_indicators.getD []
        anxiety_indicators := wd.anxiety_indicators.getD []
        purpose_level := wd.purpose_level.getD "moderate"
        pattern_change := wd.mental_pattern_change.getD false
        notes := wd.mental_notes.getD "" }
    let social : SocialState :=
      { family_contact_recency := wd.family_contact_recency.getD "unknown"
        isolation_level := wd.isolation_level.getD "none"
        community_engagement := wd.community_engagement.getD "unknown"
        support_network_strength := wd.support_network_strength.getD "moderate"
        notes := wd.social_notes.getD "" }
    let physical : PhysicalState :=
      { pain_reported := wd.pain_reported.getD false
        pain_details := wd.pain_details
        mobility_concerns := wd.mobility_concerns.getD false
        sleep_issues := wd.sleep_issues.getD false
        nutrition_concerns := wd.nutrition_concerns.getD false
        medication_issues := wd.medication_issues.getD false
        energy_level := wd.energy_level.getD "good"
        notes := wd.physical_notes.getD "" }
    let cognitive : CognitiveState :=
      { memory_concerns := wd.memory_concerns.getD false
        orientation_issues := wd.orientation_issues.getD false
        baseline_change := wd.cognitive_baseline_change.getD false
        notes := wd.cognitive_notes.getD "" }
    let overall := wd.overall_concern_level.getD "none"
    if literalOk ["none", "mild", "moderate", "high"] emotional.loneliness_level
        && literalOk ["strong", "moderate", "low", "absent"] mental.purpose_level
        && literalOk ["none", "mild", "moderate", "severe"] social.isolation_level
        && literalOk ["strong", "moderate", "weak"] social.support_network_strength
        && literalOk ["good", "low", "very_low"] physical.energy_level
        && literalOk ["none", "low", "moderate", "high", "critical"] overall then
      .ok (some { emotional := emotional, mental := mental, social := social,
                  physical := physical, cognitive := cognitive,
                  overall_concern_level := overall })
    else .error .validationError

/-- Construction Concern(...) inside _detect_concerns.  The pydantic model
models.Concern requires the fields listed in concernRequiredFields; the call
supplies only the keywords in detectConcernsKwargs, which omit dimension and
quote (and the extra keywords are ignored by the default pydantic config), so
the constructor raises ValidationError on every element.  The severity
default "medium" is additionally not a ConcernSeverity value. -/
def concernInit (_call_id : String) (_cd : ConcernData) : Except PyError Concern :=
  .error .validationError

/-- AIAnalyzer._detect_concerns: convert each parsed concern dictionary into
a models.Concern.  The loop body raises at its first iteration (see
concernInit), so a non-empty input always propagates ValidationError. -/
def detect_concerns (call_id : String) : List ConcernData → Except PyError (List Concern)
  | [] => .ok []
  | cd :: rest => do
    let c ← concernInit call_id cd
    let cs ← detect_concerns call_id rest
    .ok (c :: cs)

/-- Construction ProfileFact(...) inside _extract_profile_facts.  The pydantic
model models.ProfileFact requires learned_at, which the call does not supply
(it passes detected_at and confidence instead), and the category default
"general" is not in the category Literal, so the constructor raises
ValidationError on every element. -/
def profileFactInit (_call_id : String) (_pu : ProfileUpdateData) : Except PyError ProfileFact :=
  .error .validationError

/-- AIAnalyzer._extract_profile_facts. -/
def extract_profile_facts (call_id : String) : List ProfileUpdateData → Except PyError (List ProfileFact)
  | [] => .ok []
  | pu :: rest => do
    let f ← profileFactInit call_id pu
    let fs ← extract_profile_facts call_id rest
    .ok (f :: fs)

/-- One entry of the actions list built by _suggest_village_actions. -/
structure VillageActionDict where
  type : String
  urgency : String
  reason : String
  target_member : VillageMember
  estimated_response_time : Nat
  deriving Repr, DecidableEq

/-- AIAnalyzer._suggest_village_actions: for each suggestion, resolve a
village member via _match_village_member and, when one is found, append an
action dictionary with the response-time estimate of the source. -/
def suggest_village_actions (elder : Elder) :
    List SuggestedActionData → Except PyError (List VillageActionDict)
  | [] => .ok []
  | s :: rest => do
    let action_type := s.action_type.getD ""
    let suggested_contact := s.suggested_contact.getD ""
    let target ← match_village_member elder action_type suggested_contact
    let tail ← suggest_village_actions elder rest
    match target with
    | some m =>
      .ok ({ type := action_type
             urgency := s.urgency.getD "routine"
             reason := s.reason.getD ""
             target_member := m
             estimated_response_time :=
               if s.urgency = some "immediate" then 78 else 300 } :: tail)
    | none => .ok tail

/-- AIAnalyzer._parse_gemini_response: a response whose text parses (after
fence stripping) yields its structure; a json.loads failure is caught and
the default dictionary with empty wellbeing and empty lists is returned. -/
def parse_gemini_response : GeminiText → AnalysisJson
  | .parsesTo a => a
  | .unparseable => { wellbeing := none, concerns := [], profile_updates := [],
                      suggested_actions := [] }

/-! ## Analyzer state and main step (AIAnalyzer.analyze_transcript_chunk) -/

/-- The wellbeing_indicators sub-dictionary initialised for a fresh per-call
context; the analyzer never updates it. -/
structure WellbeingIndicators where
  mood : Option String := none
  energy : Option String := none
  cognitive_clarity : Option String := none
  social_engagement : Option String := none
  deriving Repr, DecidableEq

/-- One entry of the transcript_history list of a per-call context: the
dictionary with speaker, text and timestamp appended by
analyze_transcript_chunk. -/
structure HistoryEntry where
  speaker : String
  text : String
  timestamp : String
  deriving Repr, DecidableEq

/-- Projection of an incoming TranscriptLine to the history dictionary
appended to the per-call context. -/
def histEntryOf (line : TranscriptLine) : HistoryEntry :=
  { speaker := line.speaker, text := line.text, timestamp := line.timestamp }

/-- The per-call analysis context stored in AIAnalyzer.analysis_context. -/
structure AnalysisContext where
  transcript_history : List HistoryEntry
  detected_concerns : List Concern
  wellbeing_indicators : WellbeingIndicators
  deriving Repr, DecidableEq

/-- Context initialised for the first chunk of a call. -/
def freshContext : AnalysisContext :=
  { transcript_history := [], detected_concerns := [],
    wellbeing_indicators := {} }

/-- AIAnalyzer.analysis_context: the dictionary keyed by call id. -/
def AnalyzerState : Type := String → Option AnalysisContext

/-- The analyzer's initial state: the empty dictionary. -/
def analyzerEmpty : AnalyzerState := fun _ => none

/-- Transcript history stored for a call id (empty if no context exists). -/
def histOf (s : AnalyzerState) (call_id : String) : List HistoryEntry :=
  match s call_id with
  | some ctx => ctx.transcript_history
  | none => []

/-- The data of the structured request _build_analysis_prompt assembles: the
elder header fields and the transcript window; the fixed surrounding template
text is elided, and transcript_text is the formatted window as in the
source. -/
structure PromptData where
  elderName : String
  elderAge : Nat
  baselineMood : String
  transcriptLines : List HistoryEntry
  transcriptText : String
  deriving Repr, DecidableEq

/-- The rolling window transcript_history[-10:]: the last min(length, 10)
entries. -/
def promptWindow (h : List HistoryEntry) : List HistoryEntry :=
  h.drop (h.length - 10)

/-- AIAnalyzer._build_analysis_prompt: formats the last 10 history entries as
SPEAKER: text lines and fills in the elder's name, age and baseline mood
(with the "Unknown" fallback of the source). -/
def build_analysis_prompt (elder : Elder) (transcript_history : List HistoryEntry) :
    PromptData :=
  let window := promptWindow transcript_history
  { elderName := elder.name
    elderAge := elder.age
    baselineMood :=
      match elder.wellbeing_baseline with
      | some b => b.typical_mood
      | none => "Unknown"
    transcriptLines := window
    transcriptText :=
      String.intercalate "\n"
        (window.map (fun l => l.speaker.toUpper ++ ": " ++ l.text)) }

/-- The dictionary analyze_transcript_chunk returns. -/
structure AnalysisOutput where
  wellbeing_update : Option WellbeingAssessment
  concerns : List Concern
  profile_facts : List ProfileFact
  suggested_actions : List VillageActionDict
  deriving Repr, DecidableEq

/-- The empty-insight dictionary returned on cold start, when unconfigured,
and from the except branch. -/
def emptyInsight : AnalysisOutput :=
  { wellbeing_update := none, concerns := [], profile_facts := [],
    suggested_actions := [] }

/-- Result of one analyze_transcript_chunk call: the new analyzer state, the
returned dictionary, the number of generate_content invocations made during
the call (0 or 1), and the request sent to the provider if one was sent. -/
structure StepOutput where
  state : AnalyzerState
  result : AnalysisOutput
  invocations : Nat
  sentPrompt : Option PromptData

/-- Body of the try block once a response text is obtained: parse it and run
the four extraction helpers in source order; any raised error is propagated
to the except handler of the caller. -/
def analysisTryBody (call_id : String) (elder : Elder) (text : GeminiText) :
    Except PyError AnalysisOutput := do
  let analysis := parse_gemini_response text
  let wellbeing_update ← create_wellbeing_assessment analysis.wellbeing
  let concerns ← detect_concerns call_id analysis.concerns
  let profile_facts ← extract_profile_facts call_id analysis.profile_updates
  let suggested_actions ← suggest_village_actions elder analysis.suggested_actions
  .ok { wellbeing_update := wellbeing_update, concerns := concerns,
        profile_facts := profile_facts, suggested_actions := suggested_actions }

/-- AIAnalyzer.analyze_transcript_chunk for one submission.  configured is
whether GOOGLE_API_KEY was set (self.model is not None); provider is the
behaviour of the one generate_content call this step can make; call_id is
call.id of the CallSession argument.  The new transcript line is always
appended to the per-call context first (creating it if absent); with fewer
than 3 accumulated lines, or with no configured client, the empty insight is
returned without contacting the provider; otherwise the provider is invoked
exactly once on the built prompt and any exception in the try block produces
the empty insight. -/
def analyze_transcript_chunk (configured : Bool) (provider : ProviderResult)
    (elder : Elder) (s : AnalyzerState) (call_id : String)
    (line : TranscriptLine) : StepOutput :=
  let ctx := (s call_id).getD freshContext
  let ctx1 := { ctx with
    transcript_history := ctx.transcript_history ++ [histEntryOf line] }
  let s1 : AnalyzerState := fun x => if x = call_id then some ctx1 else s x
  if ctx1.transcript_history.length < 3 then
    { state := s1, result := emptyInsight, invocations := 0, sentPrompt := none }
  else
    let prompt := build_analysis_prompt elder ctx1.transcript_history
    if !configured then
      { state := s1, result := emptyInsight, invocations := 0, sentPrompt := none }
    else
      match provider with
      | .raises =>
        { state := s1, result := emptyInsight, invocations := 1,
          sentPrompt := some prompt }
      | .returns text =>
        match analysisTryBody call_id elder text with
        | .ok out =>
          { state := s1, result := out, invocations := 1,
            sentPrompt := some prompt }
        | .error _ =>
          { state := s1, result := emptyInsight, invocations := 1,
            sentPrompt := some prompt }

/-- AIAnalyzer.cleanup_call_context: delete the call's context if present
(the dictionary is unchanged at every other key). -/
def cleanup_call_context (s : AnalyzerState) (call_id : String) : AnalyzerState :=
  fun x => if x = call_id then none else s x

/-- One submission to the analyzer: the call it addresses, the transcript
line, and the provider behaviour for the invocation this step may make. -/
structure Submission where
  call_id : String
  line : TranscriptLine
  provider : ProviderResult

/-- Run a sequence of submissions through the analyzer, threading the
state. -/
def runTrace (configured : Bool) (elder : Elder) (s : AnalyzerState) :
    List Submission → AnalyzerState
  | [] => s
  | sub :: t =>
    runTrace configured elder
      (analyze_transcript_chunk configured sub.provider elder s
        sub.call_id sub.line).state t

/-! ## Event broadcast hub (src/backend/websocket_manager.py) -/

/-- ConnectionManager state: active_connections is a set of websocket
connections (modelled as a duplicate-free list of connection numbers) and
call_subscriptions maps call ids to subscriber sets (modelled as an
association list, mirroring the dict, with duplicate-free value lists). -/
structure ManagerState where
  active_connections : List Nat
  call_subscriptions : List (String × List Nat)
  deriving Repr, DecidableEq

/-- Dictionary lookup in call_subscriptions. -/
def lookupSubs : List (String × List Nat) → String → Option (List Nat)
  | [], _ => none
  | e :: es, c => if e.1 = c then some e.2 else lookupSubs es c

/-- ConnectionManager.disconnect: discard the connection from
active_connections and from every call's subscriber set (set.discard is
removal of every occurrence). -/
def disconnect (st : ManagerState) (ws : Nat) : ManagerState :=
  { active_connections := st.active_connections.filter (fun x => x ≠ ws)
    call_subscriptions :=
      st.call_subscriptions.map (fun e => (e.1, e.2.filter (fun x => x ≠ ws))) }

/-- ConnectionManager.broadcast_to_call(call_id, message) parameterised by
which connections' send_json raises (fail).  Returns the new state, the list
of subscribers to which a send was attempted, and the list of subscribers
that received the message.  If the call id is not in call_subscriptions the
method returns at once having sent nothing.  Otherwise the subscriber set is
copied, each copy element gets exactly one send attempt (a raising send is
caught and the connection collected), and afterwards every collected
connection is disconnected.  The method itself never raises: every send
exception is caught by the per-connection handler. -/
def broadcast_to_call (fail : Nat → Bool) (st : ManagerState)
    (call_id : String) (_message : String) : ManagerState × List Nat × List Nat :=
  match lookupSubs st.call_subscriptions call_id with
  | none => (st, [], [])
  | some subscribers =>
    let disconnected := subscribers.filter fail
    let delivered := subscribers.filter (fun c => !(fail c))
    let st1 := disconnected.foldl (fun acc c => disconnect acc c) st
    (st1, subscribers, delivered)

/-! ## Call status writes (src/backend/main.py and voice/agent.py) -/

/-- models_simple.CallStatus values together with no_answer from
models.CallStatus; the claim's state machine ranges over these. -/
inductive CallStatus where
  | ringing
  | in_progress
  | completed
  | failed
  | no_answer
  deriving Repr, DecidableEq

/-- The primitive status writes the endpoints perform on one call record:
insertRinging is start_call's insert of the record with status ringing;
setInProgress is start_call's unconditional update to in_progress after the
SIP participant is created; setCompleted is the unconditional update to
completed performed by save_call_data and by the agent's shutdown callback. -/
inductive DbOp where
  | insertRinging
  | setInProgress
  | setCompleted
  deriving Repr, DecidableEq

/-- Effect of one write on the call record's status (none means the record
does not exist).  An insert of an existing id raises inside start_call and
changes nothing; an update matching no row changes nothing (save_call_data
additionally returns 404 before its update when the record is missing). -/
def applyOp : DbOp → Option CallStatus → Option CallStatus
  | .insertRinging, none => some .ringing
  | .insertRinging, some s => some s
  | .setInProgress, none => none
  | .setInProgress, some _ => some .in_progress
  | .setCompleted, none => none
  | .setCompleted, some _ => some .completed

/-- Run a sequence of status writes. -/
def runOps (t : List DbOp) (db : Option CallStatus) : Option CallStatus :=
  t.foldl (fun d op => applyOp op d) db

/-- The status sequence after a state, one entry per write. -/
def trajFrom (db : Option CallStatus) : List DbOp → List (Option CallStatus)
  | [] => []
  | op :: t => applyOp op db :: trajFrom (applyOp op db) t

/-- The transition relation claimed for call status: the status stays put or
moves forward along ringing to in_progress to a terminal state. -/
def statusStepOk (s s' : CallStatus) : Bool :=
  (s = s') || (s = .ringing && s' = .in_progress) ||
    (s = .in_progress && (s' = .completed || s' = .failed || s' = .no_answer))

/-- The claimed transition relation lifted to possibly-missing records:
creation may enter ringing, a missing record stays missing. -/
def stepOk : Option CallStatus → Option CallStatus → Bool
  | none, none => true
  | none, some s => s = .ringing
  | some s, some s' => statusStepOk s s'
  | some _, none => false

/-- Traces following the intended operation order: the record is inserted
first, in_progress is written before any completed write, and no in_progress
write follows a completed write.  The phase argument is 0 before any update,
1 once in_progress has been written, 2 once completed has been written. -/
def intendedOrderAux : Nat → List DbOp → Bool
  | _, [] => true
  | p, op :: t =>
    match op with
    | .insertRinging => p == 0 && intendedOrderAux 0 t
    | .setInProgress => p ≤ 1 && intendedOrderAux 1 t
    | .setCompleted => (p == 1 || p == 2) && intendedOrderAux 2 t

/-- A trace of status writes in the intended order. -/
def intendedOrder (t : List DbOp) : Bool :=
  intendedOrderAux 0 t

/-! ## Concrete data for witnesses and counterexamples (from
src/backend/margaret.py and the spec's test scenarios) -/

/-- Village member vm-001 from margaret.py. -/
def susanChen : VillageMember :=
  { id := "vm-001", name := "Susan Chen", role := "family",
    relationship := "daughter", phone := "+1-215-555-0198",
    availability := some "evenings",
    notes := some "Works full-time, feels guilty about not calling more" }

/-- Village member vm-002 from margaret.py. -/
def tomBradley : VillageMember :=
  { id := "vm-002", name := "Tom Bradley", role := "neighbor",
    relationship := "next-door neighbor", phone := "+1-412-555-0156",
    availability := some "afternoons",
    notes := some "Retired teacher, brings mail often" }

/-- Medical info from margaret.py, medications elided. -/
def margaretMedical : MedicalInfo :=
  { primary_doctor := "Dr. Maria Martinez",
    practice_name := "Oakland Family Medicine",
    practice_phone := "+1-412-555-0200",
    medications := [], conditions := ["Hypertension"] }

/-- Wellbeing baseline from margaret.py. -/
def margaretBaseline : WellbeingBaseline :=
  { typical_mood := "Generally positive, occasionally melancholy about Harold",
    social_frequency := "Talks to Susan weekly, sees Tom a few times a week",
    cognitive_baseline := "Sharp, good memory, occasionally forgets small things",
    physical_limitations := [], known_concerns := [] }

/-- A concrete elder built from margaret.py with a two-member roster (the
family member and the neighbor, matching the spec's resolver scenario). -/
def margaretElder : Elder :=
  { id := "margaret-chen-001", name := "Margaret Chen", age := 78,
    phone := "+1-412-555-0142", photo_url := some "/margaret.jpg",
    address := "412 Oak Street, Pittsburgh, PA 15213", profile := [],
    village := [susanChen, tomBradley], medical := margaretMedical,
    wellbeing_baseline := some margaretBaseline }

/-- The same elder with an empty roster. -/
def noVillageElder : Elder :=
  { margaretElder with village := [] }

/-- Transcript lines of the spec's cold-start scenario. -/
def lineHello : TranscriptLine :=
  { id := "t1", speaker := "elder", speaker_name := "Margaret",
    text := "Hello", timestamp := "2026-01-18T09:00:00" }

/-- Second scenario line. -/
def lineHi : TranscriptLine :=
  { id := "t2", speaker := "agent", speaker_name := "Elina",
    text := "Hi", timestamp := "2026-01-18T09:00:05" }

/-- Third scenario line. -/
def lineAlone : TranscriptLine :=
  { id := "t3", speaker := "elder", speaker_name := "Margaret",
    text := "I feel so alone lately", timestamp := "2026-01-18T09:00:10" }

/-- A parsed provider response carrying exactly one concern of severity high
with action_required true, as in the spec's escalation scenario. -/
def highConcernAnalysis : AnalysisJson :=
  { wellbeing := none,
    concerns := [{ type := some "emotional", severity := some "high",
                   description := some "elder reports feeling very alone",
                   action_required := some true }],
    profile_updates := [], suggested_actions := [] }

/-- Two qualifying submissions for call-1 preceding a third. -/
def twoSubs : List Submission :=
  [{ call_id := "call-1", line := lineHello, provider := .raises },
   { call_id := "call-1", line := lineHi, provider := .raises }]

/-! ## Helper lemmas: analyzer -/

theorem getD_hist (s : AnalyzerState) (c : String) :
    ((s c).getD freshContext).transcript_history = histOf s c := by
  cases h : s c <;> simp [histOf, h, freshContext]

theorem step_state_eq (cfg : Bool) (pb : ProviderResult) (e : Elder)
    (s : AnalyzerState) (c : String) (l : TranscriptLine) :
    (analyze_transcript_chunk cfg pb e s c l).state = fun x =>
      if x = c then
        some { (s c).getD freshContext with
          transcript_history :=
            ((s c).getD freshContext).transcript_history ++ [histEntryOf l] }
      else s x := by
  unfold analyze_transcript_chunk
  dsimp only
  split
  · rfl
  · split
    · rfl
    · split
      · rfl
      · split <;> rfl

theorem histOf_step_self (cfg : Bool) (pb : ProviderResult) (e : Elder)
    (s : AnalyzerState) (c : String) (l : TranscriptLine) :
    histOf (analyze_transcript_chunk cfg pb e s c l).state c
      = histOf s c ++ [histEntryOf l] := by
  rw [step_state_eq]
  simp [histOf, getD_hist]

theorem histOf_step_other (cfg : Bool) (pb : ProviderResult) (e : Elder)
    (s : AnalyzerState) (c x : String) (l : TranscriptLine) (h : x ≠ c) :
    histOf (analyze_transcript_chunk cfg pb e s c l).state x = histOf s x := by
  rw [step_state_eq]
  simp [histOf, h]

theorem runTrace_hist (cfg : Bool) (e : Elder) (t : List Submission) :
    ∀ (s : AnalyzerState) (c : String),
      histOf (runTrace cfg e s t) c
        = histOf s c
          ++ (t.filter (fun sub => sub.call_id == c)).map
               (fun sub => histEntryOf sub.line) := by
  induction t with
  | nil => intro s c; simp [runTrace]
  | cons sub t ih =>
    intro s c
    rw [runTrace, ih]
    by_cases h : sub.call_id = c
    · subst h
      rw [histOf_step_self]
      simp
    · rw [histOf_step_other _ _ _ _ _ _ _ (fun hx => h hx.symm)]
      have hb : (sub.call_id == c) = false := by simp [h]
      simp [List.filter_cons, hb]

theorem step_invocations (cfg : Bool) (pb : ProviderResult) (e : Elder)
    (s : AnalyzerState) (c : String) (l : TranscriptLine) :
    (analyze_transcript_chunk cfg pb e s c l).invocations =
      if (histOf s c).length + 1 < 3 then 0 else if cfg then 1 else 0 := by
  unfold analyze_transcript_chunk
  simp only [getD_hist, List.length_append, List.length_singleton]
  split
  · rfl
  · cases cfg with
    | false => rfl
    | true =>
      split
      · next h => simp at h
      · split
        · rfl
        · split <;> rfl

theorem step_sentPrompt (cfg : Bool) (pb : ProviderResult) (e : Elder)
    (s : AnalyzerState) (c : String) (l : TranscriptLine) :
    (analyze_transcript_chunk cfg pb e s c l).sentPrompt =
      if (histOf s c).length + 1 < 3 then none
      else if cfg then
        some (build_analysis_prompt e (histOf s c ++ [histEntryOf l]))
      else none := by
  unfold analyze_transcript_chunk
  simp only [getD_hist, List.length_append, List.length_singleton]
  split
  · rfl
  · cases cfg with
    | false => rfl
    | true =>
      split
      · next h => simp at h
      · split
        · rfl
        · split <;> rfl

theorem step_result_cold (cfg : Bool) (pb : ProviderResult) (e : Elder)
    (s : AnalyzerState) (c : String) (l : TranscriptLine)
    (h : (histOf s c).length + 1 < 3) :
    (analyze_transcript_chunk cfg pb e s c l).result = emptyInsight := by
  unfold analyze_transcript_chunk
  simp only [getD_hist, List.length_append, List.length_singleton]
  rw [if_pos h]

theorem step_result_unconfigured (pb : ProviderResult) (e : Elder)
    (s : AnalyzerState) (c : String) (l : TranscriptLine) :
    (analyze_transcript_chunk false pb e s c l).result = emptyInsight := by
  unfold analyze_transcript_chunk
  dsimp only
  split <;> rfl

theorem step_result_raises (cfg : Bool) (e : Elder)
    (s : AnalyzerState) (c : String) (l : TranscriptLine) :
    (analyze_transcript_chunk cfg .raises e s c l).result = emptyInsight := by
  unfold analyze_transcript_chunk
  dsimp only
  split
  · rfl
  · cases cfg <;> rfl

theorem analysisTryBody_unparseable (c : String) (e : Elder) :
    analysisTryBody c e .unparseable = .ok emptyInsight := rfl

theorem step_result_unparseable (cfg : Bool) (e : Elder)
    (s : AnalyzerState) (c : String) (l : TranscriptLine) :
    (analyze_transcript_chunk cfg (.returns .unparseable) e s c l).result
      = emptyInsight := by
  unfold analyze_transcript_chunk
  dsimp only
  split
  · rfl
  · cases cfg with
    | false => rfl
    | true =>
      rw [analysisTryBody_unparseable]
      rfl

/-! ## Helper lemmas: broadcast hub -/

theorem disconnect_not_mem_active (st : ManagerState) (w : Nat) :
    w ∉ (disconnect st w).active_connections := by
  simp [disconnect, List.mem_filter]

theorem disconnect_not_mem_subs (st : ManagerState) (w : Nat) :
    ∀ e ∈ (disconnect st w).call_subscriptions, w ∉ e.2 := by
  intro e he
  simp only [disconnect, List.mem_map] at he
  obtain ⟨a, _, rfl⟩ := he
  simp [List.mem_filter]

theorem disconnect_pres_active (st : ManagerState) (w x : Nat)
    (h : x ∉ st.active_connections) :
    x ∉ (disconnect st w).active_connections := by
  simp only [disconnect, List.mem_filter]
  intro hx
  exact h hx.1

theorem disconnect_pres_subs (st : ManagerState) (w x : Nat)
    (h : ∀ e ∈ st.call_subscriptions, x ∉ e.2) :
    ∀ e ∈ (disconnect st w).call_subscriptions, x ∉ e.2 := by
  intro e he
  simp only [disconnect, List.mem_map] at he
  obtain ⟨a, ha, rfl⟩ := he
  simp only [List.mem_filter]
  intro hx
  exact h a ha hx.1

theorem foldl_disconnect_pres (ds : List Nat) :
    ∀ (st : ManagerState) (x : Nat),
      x ∉ st.active_connections → (∀ e ∈ st.call_subscriptions, x ∉ e.2) →
      x ∉ (ds.foldl (fun acc c => disconnect acc c) st).active_connections ∧
        ∀ e ∈ (ds.foldl (fun acc c => disconnect acc c) st).call_subscriptions,
          x ∉ e.2 := by
  induction ds with
  | nil => intro st x h1 h2; exact ⟨h1, h2⟩
  | cons d t ih =>
    intro st x h1 h2
    exact ih (disconnect st d) x (disconnect_pres_active st d x h1)
      (disconnect_pres_subs st d x h2)

theorem foldl_disconnect_mem (ds : List Nat) :
    ∀ (st : ManagerState) (x : Nat), x ∈ ds →
      x ∉ (ds.foldl (fun acc c => disconnect acc c) st).active_connections ∧
        ∀ e ∈ (ds.foldl (fun acc c => disconnect acc c) st).call_subscriptions,
          x ∉ e.2 := by
  induction ds with
  | nil => intro _ _ h; cases h
  | cons d t ih =>
    intro st x hx
    rcases List.mem_cons.mp hx with h | h
    · subst h
      exact foldl_disconnect_pres t (disconnect st x) x
        (disconnect_not_mem_active st x) (disconnect_not_mem_subs st x)
    · exact ih (disconnect st d) x h

/-! ## Helper lemmas: call status -/

/-- Invariant tying the intended-order phase to the possible record states:
before any update the record is absent or ringing, in phase 1 absent or
in_progress, in phase 2 absent or completed. -/
def phaseInv : Nat → Option CallStatus → Prop
  | 0, db => db = none ∨ db = some .ringing
  | 1, db => db = none ∨ db = some .in_progress
  | _, db => db = none ∨ db = some .completed

theorem intended_chain_aux (t : List DbOp) :
    ∀ (p : Nat) (db : Option CallStatus), intendedOrderAux p t = true →
      phaseInv p db →
      List.Chain (fun a b => stepOk a b = true) db (trajFrom db t) := by
  induction t with
  | nil => intro p db _ _; exact List.Chain.nil
  | cons op t ih =>
    intro p db hord hinv
    cases op with
    | insertRinging =>
      simp only [intendedOrderAux, Bool.and_eq_true, beq_iff_eq] at hord
      obtain ⟨hp, hrest⟩ := hord
      subst hp
      rcases hinv with h | h <;> subst h
      · exact List.Chain.cons (by decide) (ih 0 (some .ringing) hrest (Or.inr rfl))
      · exact List.Chain.cons (by decide) (ih 0 (some .ringing) hrest (Or.inr rfl))
    | setInProgress =>
      simp only [intendedOrderAux, Bool.and_eq_true, decide_eq_true_eq] at hord
      obtain ⟨hp, hrest⟩ := hord
      interval_cases p
      · rcases hinv with h | h <;> subst h
        · exact List.Chain.cons (by decide) (ih 1 none hrest (Or.inl rfl))
        · exact List.Chain.cons (by decide)
            (ih 1 (some .in_progress) hrest (Or.inr rfl))
      · rcases hinv with h | h <;> subst h
        · exact List.Chain.cons (by decide) (ih 1 none hrest (Or.inl rfl))
        · exact List.Chain.cons (by decide)
            (ih 1 (some .in_progress) hrest (Or.inr rfl))
    | setCompleted =>
      simp only [intendedOrderAux, Bool.and_eq_true, Bool.or_eq_true,
        beq_iff_eq] at hord
      obtain ⟨hp, hrest⟩ := hord
      rcases hp with hp | hp <;> subst hp
      · rcases hinv with h | h <;> subst h
        · exact List.Chain.cons (by decide) (ih 2 none hrest (Or.inl rfl))
        · exact List.Chain.cons (by decide)
            (ih 2 (some .completed) hrest (Or.inr rfl))
      · rcases hinv with h | h <;> subst h
        · exact List.Chain.cons (by decide) (ih 2 none hrest (Or.inl rfl))
        · exact List.Chain.cons (by decide)
            (ih 2 (some .completed) hrest (Or.inr rfl))

/-! ## Claim theorems -/

/-- C1: Cold-start suppression.  For every call id, starting from the empty
analyzer and running any sequence of submissions, a further submission for
that call sees k previously accumulated lines where k counts the earlier
submissions to that call; while k + 1 < 3 (the 1st and 2nd submissions) the
provider is not invoked, no request is sent, and the result is the empty
insight; on the 3rd submission, with a configured client, generate_content is
invoked exactly once. -/
theorem c1_cold_start_suppression (configured : Bool) (elder : Elder)
    (t : List Submission) (c : String) (pb : ProviderResult)
    (line : TranscriptLine) :
    ((t.filter (fun sub => sub.call_id == c)).length + 1 < 3 →
        (analyze_transcript_chunk configured pb elder
            (runTrace configured elder analyzerEmpty t) c line).invocations = 0 ∧
          (analyze_transcript_chunk configured pb elder
            (runTrace configured elder analyzerEmpty t) c line).result
              = emptyInsight ∧
          (analyze_transcript_chunk configured pb elder
            (runTrace configured elder analyzerEmpty t) c line).sentPrompt
              = none) ∧
      ((t.filter (fun sub => sub.call_id == c)).length + 1 = 3 →
        configured = true →
        (analyze_transcript_chunk configured pb elder
          (runTrace configured elder analyzerEmpty t) c line).invocations = 1) := by
  have hk : (histOf (runTrace configured elder analyzerEmpty t) c).length
      = (t.filter (fun sub => sub.call_id == c)).length := by
    rw [runTrace_hist]
    simp [histOf, analyzerEmpty]
  constructor
  · intro h
    refine ⟨?_, ?_, ?_⟩
    · rw [step_invocations, hk, if_pos h]
    · exact step_result_cold _ _ _ _ _ _ (by rw [hk]; exact h)
    · rw [step_sentPrompt, hk, if_pos h]
  · intro h hc
    subst hc
    rw [step_invocations, hk, if_neg (by omega)]
    rfl

/-- Witness for c1_cold_start_suppression: after the two scenario submissions
for call-1 the third submission invokes the provider exactly once, and the
very first submission invokes it zero times. -/
theorem c1_cold_start_suppression_witness :
    ((twoSubs.filter (fun sub => sub.call_id == "call-1")).length + 1 = 3 ∧
        (analyze_transcript_chunk true .raises margaretElder
          (runTrace true margaretElder analyzerEmpty twoSubs) "call-1"
          lineAlone).invocations = 1) ∧
      (analyze_transcript_chunk true .raises margaretElder
        (runTrace true margaretElder analyzerEmpty []) "call-1"
        lineHello).invocations = 0 :=
  ⟨⟨by decide,
    (c1_cold_start_suppression true margaretElder twoSubs "call-1" .raises
      lineAlone).2 (by decide) rfl⟩,
   ((c1_cold_start_suppression true margaretElder [] "call-1" .raises
      lineHello).1 (by decide)).1⟩

/-- C4: Degraded-mode error handling.  On a submission with at least 3
accumulated lines (counting the new line), the transcript line is appended to
the per-call context, and when the provider is unconfigured, raises, or
returns text that fails JSON parsing, the function returns the empty insight
instead of propagating an error (the embedding is a total function: every
provider exception is absorbed by the except branch of the source). -/
theorem c4_degraded_mode (configured : Bool) (pb : ProviderResult)
    (elder : Elder) (s : AnalyzerState) (c : String) (line : TranscriptLine)
    (_h3 : 3 ≤ (histOf s c).length + 1) :
    histOf (analyze_transcript_chunk configured pb elder s c line).state c
        = histOf s c ++ [histEntryOf line] ∧
      (configured = false →
        (analyze_transcript_chunk configured pb elder s c line).result
          = emptyInsight) ∧
      (pb = .raises →
        (analyze_transcript_chunk configured pb elder s c line).result
          = emptyInsight) ∧
      (pb = .returns .unparseable →
        (analyze_transcript_chunk configured pb elder s c line).result
          = emptyInsight) := by
  refine ⟨histOf_step_self configured pb elder s c line, ?_, ?_, ?_⟩
  · rintro rfl
    exact step_result_unconfigured pb elder s c line
  · rintro rfl
    exact step_result_raises configured elder s c line
  · rintro rfl
    exact step_result_unparseable configured elder s c line

/-- Witness for c4_degraded_mode: the third submission for call-1 with a
raising provider still appends the line and yields the empty insight. -/
theorem c4_degraded_mode_witness :
    3 ≤ (histOf (runTrace true margaretElder analyzerEmpty twoSubs)
          "call-1").length + 1 ∧
      histOf (analyze_transcript_chunk true .raises margaretElder
          (runTrace true margaretElder analyzerEmpty twoSubs) "call-1"
          lineAlone).state "call-1"
        = histOf (runTrace true margaretElder analyzerEmpty twoSubs) "call-1"
            ++ [histEntryOf lineAlone] ∧
      (analyze_transcript_chunk true .raises margaretElder
        (runTrace true margaretElder analyzerEmpty twoSubs) "call-1"
        lineAlone).result = emptyInsight :=
  ⟨by decide,
   (c4_degraded_mode true .raises margaretElder
     (runTrace true margaretElder analyzerEmpty twoSubs) "call-1" lineAlone
     (by decide)).1,
   (c4_degraded_mode true .raises margaretElder
     (runTrace true margaretElder analyzerEmpty twoSubs) "call-1" lineAlone
     (by decide)).2.2.1 rfl⟩

/-- C8: Ten-line analysis window.  On an eligible submission (at least 3
lines accumulated counting the new line) with a configured client, the
request sent to the provider is built from the updated history h, its
transcript lines are exactly h.drop (h.length - 10) (the source's
transcript_history[-10:]), that slice has length min h.length 10, and it is
the final segment of h, so it consists of the most recent lines in arrival
order. -/
theorem c8_analysis_window (pb : ProviderResult) (elder : Elder)
    (s : AnalyzerState) (c : String) (line : TranscriptLine)
    (h3 : 3 ≤ (histOf s c).length + 1) :
    (analyze_transcript_chunk true pb elder s c line).sentPrompt
        = some (build_analysis_prompt elder
            (histOf s c ++ [histEntryOf line])) ∧
      (build_analysis_prompt elder
          (histOf s c ++ [histEntryOf line])).transcriptLines
        = (histOf s c ++ [histEntryOf line]).drop
            ((histOf s c ++ [histEntryOf line]).length - 10) ∧
      ((histOf s c ++ [histEntryOf line]).drop
          ((histOf s c ++ [histEntryOf line]).length - 10)).length
        = min (histOf s c ++ [histEntryOf line]).length 10 ∧
      (histOf s c ++ [histEntryOf line]).take
          ((histOf s c ++ [histEntryOf line]).length - 10)
        ++ (histOf s c ++ [histEntryOf line]).drop
            ((histOf s c ++ [histEntryOf line]).length - 10)
        = histOf s c ++ [histEntryOf line] := by
  refine ⟨?_, rfl, ?_, List.take_append_drop _ _⟩
  · rw [step_sentPrompt, if_neg (by omega)]
    rfl
  · rw [List.length_drop]
    omega

/-- A per-call context holding eleven history entries, for exercising the
window truncation. -/
def elevenLines : List HistoryEntry :=
  (List.range 11).map
    (fun i => { speaker := "elder", text := toString i, timestamp := "" })

/-- Analyzer state holding eleven lines for call-8. -/
def stateEleven : AnalyzerState := fun x =>
  if x = "call-8" then
    some { transcript_history := elevenLines, detected_concerns := [],
           wellbeing_indicators := {} }
  else none

/-- Witness for c8_analysis_window: submitting a 12th line for call-8 sends a
request whose window is the last 10 of the 12 lines. -/
theorem c8_analysis_window_witness :
    3 ≤ (histOf stateEleven "call-8").length + 1 ∧
      (analyze_transcript_chunk true .raises margaretElder stateEleven
          "call-8" lineHello).sentPrompt
        = some (build_analysis_prompt margaretElder
            (histOf stateEleven "call-8" ++ [histEntryOf lineHello])) ∧
      ((histOf stateEleven "call-8" ++ [histEntryOf lineHello]).drop
          ((histOf stateEleven "call-8" ++ [histEntryOf lineHello]).length
            - 10)).length = 10 :=
  ⟨by decide,
   (c8_analysis_window .raises margaretElder stateEleven "call-8" lineHello
     (by decide)).1,
   by decide⟩

/-- C10: Unbounded per-call context retention.  Starting from the empty
analyzer, after any submission sequence the stored transcript_history for a
call id is exactly the projections of the lines submitted to that id, in
arrival order (hence has length n after n submissions and is never truncated
to the 10-line window); and cleanup_call_context deletes exactly that call
id's context, leaving every other id's entry unchanged. -/
theorem c10_context_retention (configured : Bool) (elder : Elder)
    (t : List Submission) (c : String) (s : AnalyzerState) (c2 : String)
    (h : c2 ≠ c) :
    histOf (runTrace configured elder analyzerEmpty t) c
        = (t.filter (fun sub => sub.call_id == c)).map
            (fun sub => histEntryOf sub.line) ∧
      (histOf (runTrace configured elder analyzerEmpty t) c).length
        = (t.filter (fun sub => sub.call_id == c)).length ∧
      cleanup_call_context s c c = none ∧
      cleanup_call_context s c c2 = s c2 := by
  have h1 : histOf (runTrace configured elder analyzerEmpty t) c
      = (t.filter (fun sub => sub.call_id == c)).map
          (fun sub => histEntryOf sub.line) := by
    rw [runTrace_hist]
    simp [histOf, analyzerEmpty]
  refine ⟨h1, ?_, ?_, ?_⟩
  · rw [h1, List.length_map]
  · simp [cleanup_call_context]
  · simp [cleanup_call_context, h]

/-- Witness for c10_context_retention at the concrete two-submission trace
for call-1 and a cleanup that leaves call-2 untouched. -/
theorem c10_context_retention_witness :
    ("call-2" : String) ≠ "call-1" ∧
      histOf (runTrace true margaretElder analyzerEmpty twoSubs) "call-1"
        = [histEntryOf lineHello, histEntryOf lineHi] ∧
      cleanup_call_context stateEleven "call-8" "call-8" = none :=
  ⟨by decide,
   by
    rw [(c10_context_retention true margaretElder twoSubs "call-1"
      stateEleven "call-2" (by decide)).1]
    decide,
   (c10_context_retention true margaretElder twoSubs "call-8" stateEleven
     "call-2" (by decide)).2.2.1⟩

/-- C5 (code-bug evidence): Concern parsing.  models.Concern requires the
fields dimension and quote, which _detect_concerns does not supply, so the
pydantic constructor raises on every parsed concern entry: for the scenario
response carrying exactly one concern of severity high with action_required
true, detect_concerns raises ValidationError, the exception is swallowed by
the except branch, and the analyzer returns the empty insight with an empty
concerns list instead of a one-element list. -/
theorem c5_concern_construction_fails :
    concernRequiredFields.all (fun f => detectConcernsKwargs.contains f)
        = false ∧
      highConcernAnalysis.concerns.length = 1 ∧
      detect_concerns "call-1" highConcernAnalysis.concerns
        = .error .validationError ∧
      (analyze_transcript_chunk true (.returns (.parsesTo highConcernAnalysis))
          margaretElder (runTrace true margaretElder analyzerEmpty twoSubs)
          "call-1" lineAlone).result = emptyInsight ∧
      (analyze_transcript_chunk true (.returns (.parsesTo highConcernAnalysis))
          margaretElder (runTrace true margaretElder analyzerEmpty twoSubs)
          "call-1" lineAlone).result.concerns = [] :=
  ⟨by decide, rfl, rfl, by decide, by decide⟩

/-- C3 (code-bug evidence): Resolver algorithm.  On any non-empty roster the
first substring match (or the fallback scan) reads the attribute available,
which models.VillageMember does not define, so _match_village_member raises
AttributeError instead of returning a responder; only the empty roster
returns None.  The concrete roster is the margaret.py family member plus
neighbor, with the action types preferring family respectively neighbor. -/
theorem c3_resolver_attribute_error :
    match_village_member margaretElder "call_family" "family"
        = .error .attributeError ∧
      match_village_member margaretElder "call_neighbor" "neighbor"
        = .error .attributeError ∧
      match_village_member noVillageElder "call_family" "family" = .ok none :=
  ⟨rfl, rfl, rfl⟩

/-- C9: Resolver determinism.  The outcome of _match_village_member depends
only on the roster and the action type: any two elders with equal rosters,
any equal action type, and arbitrary (even different) suggested-contact
hints produce the identical outcome, so repeated invocations on identical
inputs agree. -/
theorem c9_resolver_deterministic (e1 e2 : Elder) (a h1 h2 : String)
    (hv : e1.village = e2.village) :
    match_village_member e1 a h1 = match_village_member e2 a h2 := by
  simp only [match_village_member, hv]

/-- The margaret.py elder with only its name changed. -/
def margaretRenamed : Elder := { margaretElder with name := "Someone Else" }

/-- Witness for c9_resolver_deterministic: the margaret elder and its renamed
copy, with different hints, resolve identically. -/
theorem c9_resolver_deterministic_witness :
    margaretElder.village = margaretRenamed.village ∧
      match_village_member margaretElder "call_medical" "doctor"
        = match_village_member margaretRenamed "call_medical" "nurse" :=
  ⟨rfl,
   c9_resolver_deterministic margaretElder margaretRenamed "call_medical"
     "doctor" "nurse" rfl⟩

/-- C6: Hub publish with zero subscribers.  If the call id is absent from
call_subscriptions, or present with an empty subscriber set, broadcast_to_call
returns normally (the embedding is total; the source catches every send
exception), attempts and delivers nothing, and returns the manager state
unchanged. -/
theorem c6_broadcast_no_subscribers (fail : Nat → Bool) (st : ManagerState)
    (call_id msg : String)
    (h : lookupSubs st.call_subscriptions call_id = none ∨
         lookupSubs st.call_subscriptions call_id = some []) :
    broadcast_to_call fail st call_id msg = (st, [], []) := by
  rcases h with h | h
  · simp [broadcast_to_call, h]
  · simp [broadcast_to_call, h]

/-- Hub state with two active connections, one call with subscribers, one
call whose subscriber set has been emptied. -/
def hubStateA : ManagerState :=
  { active_connections := [1, 2],
    call_subscriptions := [("call-busy", [1, 2]), ("call-empty", [])] }

/-- Witness for c6_broadcast_no_subscribers on an absent call id and on a
present-but-empty subscriber set. -/
theorem c6_broadcast_no_subscribers_witness :
    lookupSubs hubStateA.call_subscriptions "call-absent" = none ∧
      broadcast_to_call (fun _ => false) hubStateA "call-absent" "m"
        = (hubStateA, [], []) ∧
      lookupSubs hubStateA.call_subscriptions "call-empty" = some [] ∧
      broadcast_to_call (fun _ => false) hubStateA "call-empty" "m"
        = (hubStateA, [], []) :=
  ⟨by decide,
   c6_broadcast_no_subscribers (fun _ => false) hubStateA "call-absent" "m"
     (Or.inl (by decide)),
   by decide,
   c6_broadcast_no_subscribers (fun _ => false) hubStateA "call-empty" "m"
     (Or.inr (by decide))⟩

/-- C7: Subscriber fault isolation.  For a call id with duplicate-free
subscriber set S and failure set F = those members of S whose send raises:
a send is attempted for every member of S, exactly the members of S outside F
receive the message (each exactly once), broadcast_to_call itself returns
normally (total function; every send exception is caught per connection), and
afterwards every member of F has been removed from active_connections and
from every call's subscription set. -/
theorem c7_subscriber_fault_isolation (fail : Nat → Bool) (st : ManagerState)
    (call_id msg : String) (S : List Nat)
    (hS : lookupSubs st.call_subscriptions call_id = some S)
    (hnd : S.Nodup) :
    (broadcast_to_call fail st call_id msg).2.1 = S ∧
      (broadcast_to_call fail st call_id msg).2.2
        = S.filter (fun x => !(fail x)) ∧
      (∀ x ∈ S, fail x = false →
        ((broadcast_to_call fail st call_id msg).2.2).count x = 1) ∧
      (∀ x ∈ S, fail x = true →
        x ∉ (broadcast_to_call fail st call_id msg).1.active_connections ∧
          ∀ e ∈ (broadcast_to_call fail st call_id msg).1.call_subscriptions,
            x ∉ e.2) := by
  have hb : broadcast_to_call fail st call_id msg
      = ((S.filter fail).foldl (fun acc c => disconnect acc c) st, S,
          S.filter (fun c => !(fail c))) := by
    simp [broadcast_to_call, hS]
  rw [hb]
  refine ⟨rfl, rfl, ?_, ?_⟩
  · intro x hx hfx
    have hmem : x ∈ S.filter (fun c => !(fail c)) := by
      simp only [List.mem_filter, hfx]
      exact ⟨hx, rfl⟩
    exact List.count_eq_one_of_mem (hnd.filter _) hmem
  · intro x hx hfx
    refine foldl_disconnect_mem (S.filter fail) st x ?_
    simp only [List.mem_filter, hfx]
    exact ⟨hx, trivial⟩

/-- Witness for c7_subscriber_fault_isolation: on hubStateA, publishing to
call-busy with connection 1 failing delivers to 2 exactly once and fully
unsubscribes 1. -/
theorem c7_subscriber_fault_isolation_witness :
    lookupSubs hubStateA.call_subscriptions "call-busy" = some [1, 2] ∧
      ([1, 2] : List Nat).Nodup ∧
      (broadcast_to_call (fun x => x == 1) hubStateA "call-busy" "m").2.1
        = [1, 2] ∧
      ((broadcast_to_call (fun x => x == 1) hubStateA "call-busy" "m").2.2).count 2
        = 1 ∧
      2 ∈ ([1, 2] : List Nat) ∧ (fun x : Nat => x == 1) 2 = false ∧
      1 ∈ ([1, 2] : List Nat) ∧ (fun x : Nat => x == 1) 1 = true ∧
      1 ∉ (broadcast_to_call (fun x => x == 1) hubStateA "call-busy" "m").1.active_connections :=
  ⟨by decide, by decide,
   (c7_subscriber_fault_isolation (fun x => x == 1) hubStateA "call-busy" "m"
     [1, 2] (by decide) (by decide)).1,
   (c7_subscriber_fault_isolation (fun x => x == 1) hubStateA "call-busy" "m"
     [1, 2] (by decide) (by decide)).2.2.1 2 (by decide) (by decide),
   by decide, by decide, by decide, by decide,
   ((c7_subscriber_fault_isolation (fun x => x == 1) hubStateA "call-busy" "m"
     [1, 2] (by decide) (by decide)).2.2.2 1 (by decide) (by decide)).1⟩

/-- C2 counterexample: the status writes are unconditional, so the claimed
state machine is violated by concrete operation sequences of the program.
save_call_data (or the agent shutdown) on a call whose start_call failed
after inserting the record writes COMPLETED directly from RINGING, and
start_call's unconditional in_progress update applied after a completed write
(its await points allow save_call_data to interleave) regresses COMPLETED to
IN_PROGRESS; both transitions are outside the claimed relation. -/
theorem c2_status_monotonicity_counterexample :
    runOps [DbOp.insertRinging] none = some CallStatus.ringing ∧
      runOps [DbOp.insertRinging, DbOp.setCompleted] none
        = some CallStatus.completed ∧
      stepOk (some CallStatus.ringing) (some CallStatus.completed) = false ∧
      runOps [DbOp.insertRinging, DbOp.setCompleted, DbOp.setInProgress] none
        = some CallStatus.in_progress ∧
      stepOk (some CallStatus.completed) (some CallStatus.in_progress)
        = false := by
  decide

/-- C2 amended: for every trace of the program's status writes that follows
the intended order (the record inserted first, IN_PROGRESS written before any
COMPLETED write, and no IN_PROGRESS write after a COMPLETED write), every
consecutive pair of record states is related by the claimed forward machine:
the status never regresses, and COMPLETED is entered only from IN_PROGRESS
(or stays COMPLETED on a repeated write). -/
theorem c2_intended_order_monotonic (t : List DbOp)
    (h : intendedOrder t = true) :
    List.Chain (fun a b => stepOk a b = true) none (trajFrom none t) :=
  intended_chain_aux t 0 none h (Or.inl rfl)

/-- Witness for c2_intended_order_monotonic on the canonical successful
trace: insert ringing, set in_progress, set completed. -/
theorem c2_intended_order_monotonic_witness :
    intendedOrder [DbOp.insertRinging, DbOp.setInProgress, DbOp.setCompleted]
        = true ∧
      List.Chain (fun a b => stepOk a b = true) none
        (trajFrom none
          [DbOp.insertRinging, DbOp.setInProgress, DbOp.setCompleted]) :=
  ⟨by decide,
   c2_intended_order_monotonic
     [DbOp.insertRinging, DbOp.setInProgress, DbOp.setCompleted] (by decide)⟩
